import Mathlib

/-!
Verification of the document-assembly core: a shallow embedding of the
rule engine (`app/services/rule_engine.py`), the assembly service
(`app/services/assembly_service.py`), and the graph relationship resolver
(`app/repositories/neo4j_repo.py`), together with proofs of the spec's
claims about them.

Dynamic Python context values are modelled with the tagged variant the
spec's §9 recommends (null / bool / number / string / list), numbers as
rationals; the comparison operators carry Python's exception behaviour in
an `Except` monad.
-/

namespace DocAssembly

/-- Python TypeError raised by comparisons on incompatible operand types. -/
inductive PyErr where
  | typeError
deriving DecidableEq, Repr

/-- A scalar Python value appearing in rule/assembly contexts. -/
inductive Prim where
  | none
  | bool (b : Bool)
  | num (q : Rat)
  | str (s : String)
deriving DecidableEq, Repr

/-- A Python context value: a scalar or a list of scalars (the tagged
variant of spec §9: string | number | bool | list | null). -/
inductive Value where
  | prim (p : Prim)
  | list (xs : List Prim)
deriving DecidableEq, Repr

/-- Numeric view used by Python comparisons: bool counts as 0/1. -/
def Prim.asNum : Prim → Option Rat
  | .bool b => some (if b then 1 else 0)
  | .num q => some q
  | _ => Option.none

/-- Python `==` on scalars: numeric cross-type equality for bool/number
(True == 1), structural equality otherwise, False across kinds. -/
def primEq (a b : Prim) : Bool :=
  match a.asNum, b.asNum with
  | some x, some y => x == y
  | _, _ =>
    match a, b with
    | .none, .none => true
    | .str s, .str t => s == t
    | _, _ => false

/-- Python `==` on context values; a list equals only a list of pairwise
equal elements. -/
def pyEq (a b : Value) : Bool :=
  match a, b with
  | .prim p, .prim q => primEq p q
  | .list xs, .list ys => xs.length == ys.length && (List.zip xs ys).all (fun p => primEq p.1 p.2)
  | _, _ => false

/-- Python `<` on scalars: defined within numbers (bool as 0/1) and within
strings, TypeError across kinds and on None. -/
def primLt (a b : Prim) : Except PyErr Bool :=
  match a.asNum, b.asNum with
  | some x, some y => .ok (decide (x < y))
  | _, _ =>
    match a, b with
    | .str s, .str t => .ok (decide (s < t))
    | _, _ => .error .typeError

/-- Python `<=` on scalars. -/
def primLe (a b : Prim) : Except PyErr Bool :=
  match a.asNum, b.asNum with
  | some x, some y => .ok (decide (x ≤ y))
  | _, _ =>
    match a, b with
    | .str s, .str t => .ok (decide (s ≤ t))
    | _, _ => .error .typeError

/-- Python list `<`: first differing position decides (and may raise),
equal prefixes compare lengths. -/
def listLtPrim : List Prim → List Prim → Except PyErr Bool
  | [], [] => .ok false
  | [], _ :: _ => .ok true
  | _ :: _, [] => .ok false
  | x :: xs, y :: ys => if primEq x y then listLtPrim xs ys else primLt x y

/-- Python list `<=`. -/
def listLePrim : List Prim → List Prim → Except PyErr Bool
  | [], _ => .ok true
  | _ :: _, [] => .ok false
  | x :: xs, y :: ys => if primEq x y then listLePrim xs ys else primLe x y

/-- Python `<` on context values. -/
def pyLt (a b : Value) : Except PyErr Bool :=
  match a, b with
  | .prim p, .prim q => primLt p q
  | .list xs, .list ys => listLtPrim xs ys
  | _, _ => .error .typeError

/-- Python `<=` on context values. -/
def pyLe (a b : Value) : Except PyErr Bool :=
  match a, b with
  | .prim p, .prim q => primLe p q
  | .list xs, .list ys => listLePrim xs ys
  | _, _ => .error .typeError

/-- Substring test on character lists, used for Python `needle in hay`
on strings. -/
def charsContain (needle : List Char) : List Char → Bool
  | [] => needle.isEmpty
  | c :: cs => needle.isPrefixOf (c :: cs) || charsContain needle cs

/-- Python substring test `needle in hay`. -/
def strIn (needle hay : String) : Bool :=
  charsContain needle.data hay.data

/-- Python `x in target`: list membership by `==`, substring when target is
a string (left operand must then be a string), TypeError on non-container
targets. -/
def pyIn (x target : Value) : Except PyErr Bool :=
  match target with
  | .list ys => .ok (ys.any (fun y => pyEq x (.prim y)))
  | .prim (.str t) =>
    match x with
    | .prim (.str s) => .ok (strIn s t)
    | _ => .error .typeError
  | .prim _ => .error .typeError

/-- Operators of `RuleOperator` in `app/models/rule.py`. -/
inductive RuleOperator where
  | EQUALS | NOT_EQUALS | GREATER | GREATER_EQUAL | LESS | LESS_EQUAL
  | IN | NOT_IN | CONTAINS | AND | OR
deriving DecidableEq, Repr

/-- `Condition` model: a field name, an operator and a comparison value. -/
structure Condition where
  field : String
  operator : RuleOperator
  value : Value
deriving DecidableEq, Repr

/-- `ConditionGroup` model: a logical operator over a condition list. -/
structure ConditionGroup where
  operator : RuleOperator
  conditions : List Condition
deriving DecidableEq, Repr

/-- `Action` model: an action type tag, a target and (elided) parameters. -/
structure Action where
  type : String
  target : String
deriving DecidableEq, Repr

/-- `Rule` model (timestamps and description elided: never read by the
evaluated code). -/
structure Rule where
  id : String
  name : String
  priority : Int
  enabled : Bool
  condition_group : ConditionGroup
  actions : List Action
deriving DecidableEq, Repr

/-- `RuleEvaluationContext` model: the variables map (the Python attribute
is named `variables`, a reserved word here). -/
structure RuleEvaluationContext where
  vars : List (String × Value)
deriving DecidableEq, Repr

/-- `RuleEvaluationResult` model. -/
structure RuleEvaluationResult where
  rule_id : String
  matched : Bool
  actions : List Action
  message : Option String
deriving DecidableEq, Repr

/-- A Python dict of context variables, as an association list. -/
abbrev Ctx := List (String × Value)

/-- Python `context.get(key)`: the bound value, or None when absent. -/
def pyGet (context : Ctx) (key : String) : Value :=
  match context.lookup key with
  | some v => v
  | Option.none => Value.prim Prim.none

/-- `RuleEngine.evaluate_condition`: look the field up (absent reads as
None), return False on a None field value, then dispatch the operator;
the AND/OR operators fall through to the trailing `return False`. -/
def evaluate_condition (condition : Condition) (context : Ctx) : Except PyErr Bool :=
  let field_value := pyGet context condition.field
  if field_value = Value.prim Prim.none then .ok false
  else
    let target_value := condition.value
    match condition.operator with
    | .EQUALS => .ok (pyEq field_value target_value)
    | .NOT_EQUALS => .ok (!pyEq field_value target_value)
    | .GREATER => pyLt target_value field_value
    | .GREATER_EQUAL => pyLe target_value field_value
    | .LESS => pyLt field_value target_value
    | .LESS_EQUAL => pyLe field_value target_value
    | .IN => pyIn field_value target_value
    | .NOT_IN => (pyIn field_value target_value).map (!·)
    | .CONTAINS =>
      match field_value with
      | .prim (.str s) =>
        match target_value with
        | .prim (.str t) => .ok (strIn t s)
        | _ => .error .typeError
      | .list xs => .ok (xs.any (fun x => pyEq target_value (.prim x)))
      | _ => .ok false
    | .AND => .ok false
    | .OR => .ok false

/-- `RuleEngine.evaluate_condition_group`: an empty condition list is True;
otherwise evaluate every condition (first exception propagates) and fold
with the group operator, unknown operators giving False. -/
def evaluate_condition_group (condition_group : ConditionGroup) (context : Ctx) :
    Except PyErr Bool :=
  if condition_group.conditions.isEmpty then .ok true
  else do
    let results ← condition_group.conditions.mapM (fun c => evaluate_condition c context)
    match condition_group.operator with
    | .AND => .ok (results.all id)
    | .OR => .ok (results.any id)
    | _ => .ok false

/-- `RuleEngine.evaluate_rule`: a disabled rule reports no match and no
actions; otherwise the condition group decides `matched`. -/
def evaluate_rule (rule : Rule) (context : Ctx) : Except PyErr RuleEvaluationResult :=
  if !rule.enabled then
    .ok { rule_id := rule.id, matched := false, actions := [],
          message := some "Rule is disabled" }
  else do
    let matched ← evaluate_condition_group rule.condition_group context
    .ok { rule_id := rule.id, matched := matched,
          actions := if matched then rule.actions else [],
          message := some ("Rule " ++ rule.name ++ " evaluated: " ++
            (if matched then "matched" else "not matched")) }

/-- Stable insertion of a rule into a priority-descending list, placing it
after existing rules of greater or equal priority. -/
def insertByPriority (r : Rule) : List Rule → List Rule
  | [] => [r]
  | x :: xs => if x.priority < r.priority then r :: x :: xs else x :: insertByPriority r xs

/-- Priority-descending stable sort used by the rule store. -/
def sortByPriorityDesc : List Rule → List Rule
  | [] => []
  | r :: rs => insertByPriority r (sortByPriorityDesc rs)

/-- `MongoRepository.get_enabled_rules`: the enabled rules, sorted by
priority descending. -/
def get_enabled_rules (rules : List Rule) : List Rule :=
  sortByPriorityDesc (rules.filter (·.enabled))

/-- `RuleEngine.evaluate_all_rules`: evaluate each enabled rule in store
order against the context's variables. -/
def evaluate_all_rules (rules : List Rule) (context : RuleEvaluationContext) :
    Except PyErr (List RuleEvaluationResult) :=
  (get_enabled_rules rules).mapM (fun r => evaluate_rule r context.vars)

/-- `RuleEngine.get_matched_actions`: the actions of every matched rule,
in evaluation order. -/
def get_matched_actions (rules : List Rule) (context : RuleEvaluationContext) :
    Except PyErr (List Action) :=
  do
    let results ← evaluate_all_rules rules context
    pure ((results.filter (·.matched)).flatMap (·.actions))

/-- Dedup keeping the first occurrence of each element, against an
accumulator of already seen elements. -/
def dedupFirstAux (seen : List String) : List String → List String
  | [] => []
  | x :: xs =>
    if x ∈ seen then dedupFirstAux seen xs
    else x :: dedupFirstAux (x :: seen) xs

/-- Deduplication preserving first occurrence, as Python
`list(dict.fromkeys(xs))`. -/
def dedupFirst (xs : List String) : List String :=
  dedupFirstAux [] xs

/-- `RuleEngine.get_blocks_to_include`: targets of `include_block` actions
of matched rules, deduplicated. Python's `list(set(ids))` enumerates the
distinct ids in an unspecified order; it is determinized here to
first-occurrence order. -/
def get_blocks_to_include (rules : List Rule) (context : RuleEvaluationContext) :
    Except PyErr (List String) :=
  do
    let actions ← get_matched_actions rules context
    let block_ids := (actions.filter (fun a => a.type == "include_block")).map (·.target)
    pure (dedupFirst block_ids)

/-- `TemplateSection` model (`app/models/document.py`): a static block-id
list gated by a flat key-to-expected-value condition map. -/
structure TemplateSection where
  id : String
  type : String
  required : Bool
  blocks : List String
  content : Option String
  conditions : List (String × Value)
deriving DecidableEq, Repr

/-- `Template` model (timestamps elided: never read by the assembly). -/
structure Template where
  id : String
  name : String
  description : Option String
  sections : List TemplateSection
  tags : List String
deriving DecidableEq, Repr

/-- `Block` model (metadata, relationships and timestamps elided: never
read by the assembly; graph edges are modelled separately for the
relationship resolver). -/
structure Block where
  id : String
  type : String
  title : String
  content : String
  source : String
  level : Int
deriving DecidableEq, Repr

/-- `DocumentStatus` enum. -/
inductive DocumentStatus where
  | DRAFT | ASSEMBLED | REVIEWED | FINALIZED
deriving DecidableEq, Repr

/-- `DocumentBlock` model: a resolved block snapshot with its order index. -/
structure DocumentBlock where
  block_id : String
  content : String
  order : Nat
  level : Int
deriving DecidableEq, Repr

/-- `Document` model (author, tags, timestamps and version elided: written
with defaults and never read by the assembly). -/
structure Document where
  id : String
  title : String
  template_id : Option String
  status : DocumentStatus
  blocks : List DocumentBlock
  context : Ctx
deriving DecidableEq, Repr

/-- `AssemblyRequest` model. -/
structure AssemblyRequest where
  template_id : String
  context : Ctx
  title : Option String
deriving DecidableEq, Repr

/-- `AssemblyResponse` model. -/
structure AssemblyResponse where
  document : Document
  blocks_included : Nat
  rules_applied : Nat
  message : String
deriving DecidableEq, Repr

/-- The persistent stores the assembly touches, as plain lists. -/
structure Stores where
  templates : List Template
  rules : List Rule
  blocks : List Block
  documents : List Document
deriving DecidableEq, Repr

/-- `MongoRepository.get_template`: first template with the given id. -/
def get_template (templates : List Template) (template_id : String) : Option Template :=
  templates.find? (fun t => t.id == template_id)

/-- `MongoRepository.get_block` (via `BlockService.get_block`): first block
with the given id. -/
def get_block (blocks : List Block) (block_id : String) : Option Block :=
  blocks.find? (fun b => b.id == block_id)

/-- `AssemblyService._check_section_conditions`: compare each expected
value against `context.get(key)` (None when the key is absent) with
Python `!=`, returning False at the first mismatch. -/
def check_section_conditions : List (String × Value) → Ctx → Bool
  | [], _ => true
  | (key, expected_value) :: rest, context =>
    if !pyEq (pyGet context key) expected_value then false
    else check_section_conditions rest context

/-- Section gate in `assemble_document`: a section with an empty condition
map is included unconditionally, otherwise its conditions must check. -/
def section_included (sec : TemplateSection) (context : Ctx) : Bool :=
  if !sec.conditions.isEmpty then check_section_conditions sec.conditions context
  else true

/-- Block ids contributed by the template's sections, in section order,
keeping only sections whose gate passes. -/
def template_blocks (template : Template) (context : Ctx) : List String :=
  template.sections.flatMap (fun s => if section_included s context then s.blocks else [])

/-- The resolution loop of `assemble_document`: `order` follows Python's
`enumerate` over the deduplicated id list, advancing also on ids the block
store cannot resolve, which are dropped from the output. -/
def build_document_blocks (blocks : List Block) : Nat → List String → List DocumentBlock
  | _, [] => []
  | order, block_id :: rest =>
    match get_block blocks block_id with
    | some b =>
      { block_id := b.id, content := b.content, order := order, level := b.level } ::
        build_document_blocks blocks (order + 1) rest
    | Option.none => build_document_blocks blocks (order + 1) rest

/-- Exceptions escaping `assemble_document`: the ValueError raised on a
missing template, or a TypeError propagating out of rule evaluation. -/
inductive AssembleError where
  | valueError (msg : String)
  | typeError
deriving DecidableEq, Repr

/-- Success branch of `assemble_document`, once the template has resolved
and rule evaluation has produced `block_ids_from_rules`: merge section
blocks then rule blocks, dedup keeping first occurrences, resolve each
surviving id (silently dropping unresolved ones), and persist the new
document. -/
def assemble_with (stores : Stores) (request : AssemblyRequest) (document_id : String)
    (template : Template) (block_ids_from_rules : List String) :
    Stores × Except AssembleError AssemblyResponse :=
  let blocks_to_include := template_blocks template request.context ++ block_ids_from_rules
  let rules_applied := block_ids_from_rules.length
  let unique_blocks := dedupFirst blocks_to_include
  let document_blocks := build_document_blocks stores.blocks 0 unique_blocks
  let title :=
    match request.title with
    | some t => if t.isEmpty then "Document from " ++ template.name else t
    | Option.none => "Document from " ++ template.name
  let document : Document :=
    { id := document_id, title := title, template_id := some request.template_id,
      status := .ASSEMBLED, blocks := document_blocks, context := request.context }
  ({ stores with documents := stores.documents ++ [document] },
   .ok { document := document, blocks_included := document_blocks.length,
         rules_applied := rules_applied,
         message := "Document assembled successfully with " ++
           toString document_blocks.length ++ " blocks" })

/-- `AssemblyService.assemble_document`: resolve the template (a missing id
raises ValueError before any write, leaving the stores untouched),
evaluate the rules (a TypeError from rule evaluation propagates), then run
the success branch. The generated `doc_<uuid>` id is passed in as
`document_id`. -/
def assemble_document (stores : Stores) (request : AssemblyRequest)
    (document_id : String) : Stores × Except AssembleError AssemblyResponse :=
  match get_template stores.templates request.template_id with
  | Option.none =>
    (stores, .error (.valueError ("Template " ++ request.template_id ++ " not found")))
  | some template =>
    match get_blocks_to_include stores.rules ⟨request.context⟩ with
    | .error _ => (stores, .error .typeError)
    | .ok block_ids_from_rules =>
      assemble_with stores request document_id template block_ids_from_rules

/-- All ways of picking one element out of a list, each with the remaining
elements. -/
def picks {α : Type} : List α → List (α × List α)
  | [] => []
  | x :: xs => (x, xs) :: (picks xs).map (fun p => (p.1, x :: p.2))

/-- Endpoints of the Cypher pattern `(b)-[*1..d]-(related)` starting at
`cur`: walk any not-yet-used edge in either direction, collecting every
node reached within the remaining depth. -/
def related_aux : Nat → List (String × String) → String → List String
  | 0, _, _ => []
  | Nat.succ n, edges, cur =>
    (picks edges).foldr
      (fun pe acc =>
        if pe.1.1 == cur then pe.1.2 :: related_aux n pe.2 pe.1.2 ++ acc
        else if pe.1.2 == cur then pe.1.1 :: related_aux n pe.2 pe.1.1 ++ acc
        else acc)
      []

/-- `Neo4jRepository.find_related_blocks`: the distinct nodes reachable
from `block_id` along edge-distinct undirected paths of length 1 up to
`max_depth` (the query's `[*1..$max_depth]`, which matches nothing when
`max_depth < 1`); the graph is the edge list, `DISTINCT` is determinized
to first-occurrence order. -/
def find_related_blocks (edges : List (String × String)) (block_id : String)
    (max_depth : Int) : List String :=
  dedupFirst (related_aux max_depth.toNat edges block_id)

/-- The `max_depth` request validation of `get_related_blocks` in
`app/api/blocks.py`, `Query(2, ge=1, le=5)`: out-of-range values are
rejected, not clamped. -/
def api_max_depth_ok (max_depth : Int) : Bool :=
  1 ≤ max_depth && max_depth ≤ 5

/-- A sample stored block with the given id. -/
def mkBlock (i : String) : Block :=
  { id := i, type := "paragraph", title := "T" ++ i, content := "C" ++ i,
    source := "src", level := 1 }

/-- A line graph A - B - C - D - E - F - G used to probe traversal depth. -/
def lineEdges : List (String × String) :=
  [("A", "B"), ("B", "C"), ("C", "D"), ("D", "E"), ("E", "F"), ("F", "G")]

/-- A template whose single section lists three block ids. -/
def c1template : Template :=
  { id := "tpl1", name := "Tpl", description := Option.none,
    sections := [⟨"s1", "content", true, ["a", "b", "c"], Option.none, []⟩],
    tags := [] }

/-- Stores for the order-gap scenario: the section lists a, b, c but the
block store resolves only a and c. -/
def c1stores : Stores :=
  { templates := [c1template], rules := [], blocks := [mkBlock "a", mkBlock "c"],
    documents := [] }

/-- Assembly request against `c1stores`. -/
def c1req : AssemblyRequest := { template_id := "tpl1", context := [], title := some "T" }

/-- The document assembled from `c1stores`: block b is dropped and the
orders are 0 and 2. -/
def c1doc : Document :=
  { id := "doc1", title := "T", template_id := some "tpl1",
    status := .ASSEMBLED,
    blocks := [⟨"a", "Ca", 0, 1⟩, ⟨"c", "Cc", 2, 1⟩], context := [] }

/-- Stores after the order-gap assembly. -/
def c1stores2 : Stores := { c1stores with documents := [c1doc] }

/-- Response of the order-gap assembly. -/
def c1resp : AssemblyResponse :=
  { document := c1doc, blocks_included := 2, rules_applied := 0,
    message := "Document assembled successfully with 2 blocks" }

/-- A section whose condition map expects None for a key. -/
def c4section : TemplateSection :=
  { id := "s", type := "content", required := true, blocks := ["b1"],
    content := Option.none, conditions := [("flag", Value.prim Prim.none)] }

/-- A section whose condition map expects a non-None value for a key. -/
def c4wsec : TemplateSection :=
  { id := "s", type := "content", required := true, blocks := ["b1"],
    content := Option.none, conditions := [("flag", Value.prim (Prim.bool true))] }

/-- Empty stores. -/
def c5stores : Stores := { templates := [], rules := [], blocks := [], documents := [] }

/-- A template with a duplicated block id and a gated-out second section. -/
def c6template : Template :=
  { id := "tpl6", name := "T6", description := Option.none,
    sections := [⟨"s1", "content", true, ["a", "b", "a"], Option.none, []⟩,
                 ⟨"s2", "content", true, ["z"], Option.none,
                  [("flag", Value.prim (Prim.bool true))]⟩],
    tags := [] }

/-- An enabled rule with a vacuously true condition group contributing two
block-inclusion actions. -/
def c6rule : Rule :=
  { id := "r6", name := "R6", priority := 1, enabled := true,
    condition_group := ⟨.AND, []⟩,
    actions := [⟨"include_block", "b"⟩, ⟨"include_block", "c"⟩] }

/-- Stores for the dedup scenario. -/
def c6stores : Stores :=
  { templates := [c6template], rules := [c6rule],
    blocks := [mkBlock "a", mkBlock "b", mkBlock "c"], documents := [] }

/-- Assembly request against `c6stores`. -/
def c6req : AssemblyRequest := { template_id := "tpl6", context := [], title := some "T" }

/-- The document assembled from `c6stores`. -/
def c6doc : Document :=
  { id := "doc6", title := "T", template_id := some "tpl6",
    status := .ASSEMBLED,
    blocks := [⟨"a", "Ca", 0, 1⟩, ⟨"b", "Cb", 1, 1⟩, ⟨"c", "Cc", 2, 1⟩],
    context := [] }

/-- Stores after the dedup assembly. -/
def c6stores2 : Stores := { c6stores with documents := [c6doc] }

/-- Response of the dedup assembly. -/
def c6resp : AssemblyResponse :=
  { document := c6doc, blocks_included := 3, rules_applied := 2,
    message := "Document assembled successfully with 3 blocks" }

/-- A template listing one resolvable and one unresolvable block id. -/
def c7template : Template :=
  { id := "tpl7", name := "T7", description := Option.none,
    sections := [⟨"s1", "content", true, ["a", "bad"], Option.none, []⟩],
    tags := [] }

/-- Stores for the unresolved-block scenario: the id bad has no block. -/
def c7stores : Stores :=
  { templates := [c7template], rules := [], blocks := [mkBlock "a"], documents := [] }

/-- Assembly request against `c7stores`. -/
def c7req : AssemblyRequest :=
  { template_id := "tpl7", context := [], title := Option.none }

/-- A disabled rule whose condition group would raise a TypeError if it
were ever evaluated. -/
def c9rule : Rule :=
  { id := "r1", name := "R", priority := 0, enabled := false,
    condition_group := ⟨.AND, [⟨"x", .GREATER, Value.prim (Prim.str "a")⟩]⟩,
    actions := [⟨"include_block", "b"⟩] }

/-- A block found by id carries that id. -/
theorem get_block_id {blocks : List Block} {block_id : String} {b : Block}
    (h : get_block blocks block_id = some b) : b.id = block_id := by
  unfold get_block at h
  have hp := List.find?_some h
  exact eq_of_beq hp

/-- The ids materialized by the resolution loop are exactly the candidate
ids the block store resolves, in order. -/
theorem build_document_blocks_ids (blocks : List Block) :
    ∀ (l : List String) (start : Nat),
      (build_document_blocks blocks start l).map DocumentBlock.block_id =
        l.filter (fun bid => (get_block blocks bid).isSome)
  | [], _ => rfl
  | bid :: rest, start => by
    cases h : get_block blocks bid with
    | none =>
      simp [build_document_blocks, h, List.filter_cons,
        build_document_blocks_ids blocks rest (start + 1)]
    | some b =>
      simp [build_document_blocks, h, List.filter_cons,
        build_document_blocks_ids blocks rest (start + 1), get_block_id h]

/-- Every emitted DocumentBlock's order is at least the starting counter. -/
theorem build_document_blocks_order_lb (blocks : List Block) :
    ∀ (l : List String) (start : Nat) (db : DocumentBlock),
      db ∈ build_document_blocks blocks start l → start ≤ db.order
  | [], _, _, h => by simp [build_document_blocks] at h
  | bid :: rest, start, db, h => by
    cases hb : get_block blocks bid with
    | none =>
      rw [build_document_blocks, hb] at h
      exact Nat.le_of_succ_le (build_document_blocks_order_lb blocks rest (start + 1) db h)
    | some b =>
      rw [build_document_blocks, hb] at h
      rcases List.mem_cons.mp h with h0 | h1
      · rw [h0]
      · exact Nat.le_of_succ_le (build_document_blocks_order_lb blocks rest (start + 1) db h1)

/-- The order fields emitted by the resolution loop are strictly
increasing. -/
theorem build_document_blocks_orders_pairwise (blocks : List Block) :
    ∀ (l : List String) (start : Nat),
      (build_document_blocks blocks start l).Pairwise (fun a b => a.order < b.order)
  | [], _ => by simp [build_document_blocks]
  | bid :: rest, start => by
    cases hb : get_block blocks bid with
    | none =>
      rw [build_document_blocks, hb]
      exact build_document_blocks_orders_pairwise blocks rest (start + 1)
    | some b =>
      rw [build_document_blocks, hb]
      refine List.Pairwise.cons (fun db hdb => ?_)
        (build_document_blocks_orders_pairwise blocks rest (start + 1))
      exact Nat.lt_of_succ_le (build_document_blocks_order_lb blocks rest (start + 1) db hdb)

/-- Each emitted DocumentBlock's order points back, relative to the
starting counter, at the position of its id in the candidate list. -/
theorem build_document_blocks_mem_get (blocks : List Block) :
    ∀ (l : List String) (start : Nat) (db : DocumentBlock),
      db ∈ build_document_blocks blocks start l →
        ∃ i, db.order = start + i ∧ l[i]? = some db.block_id
  | [], _, _, h => by simp [build_document_blocks] at h
  | bid :: rest, start, db, h => by
    cases hb : get_block blocks bid with
    | none =>
      rw [build_document_blocks, hb] at h
      obtain ⟨i, hi, hget⟩ := build_document_blocks_mem_get blocks rest (start + 1) db h
      exact ⟨i + 1, by omega, by simpa using hget⟩
    | some b =>
      rw [build_document_blocks, hb] at h
      rcases List.mem_cons.mp h with h0 | h1
      · refine ⟨0, by simp [h0], ?_⟩
        rw [h0]
        simp [get_block_id hb]
      · obtain ⟨i, hi, hget⟩ := build_document_blocks_mem_get blocks rest (start + 1) db h1
        exact ⟨i + 1, by omega, by simpa using hget⟩

/-- When every candidate id resolves, the emitted orders are the
consecutive counters starting at `start`. -/
theorem build_document_blocks_all_resolved (blocks : List Block) :
    ∀ (l : List String) (start : Nat),
      (∀ bid ∈ l, (get_block blocks bid).isSome) →
        (build_document_blocks blocks start l).map DocumentBlock.order =
          List.range' start l.length
  | [], _, _ => rfl
  | bid :: rest, start, h => by
    have hb : (get_block blocks bid).isSome := h bid (List.mem_cons_self bid rest)
    obtain ⟨b, hb'⟩ := Option.isSome_iff_exists.mp hb
    rw [build_document_blocks, hb']
    have ih := build_document_blocks_all_resolved blocks rest (start + 1)
      (fun x hx => h x (List.mem_cons_of_mem bid hx))
    simp [ih, List.range'_succ]

/-- Elements surviving the first-occurrence dedup were not seen before. -/
theorem mem_dedupFirstAux_not_seen :
    ∀ (l seen : List String) (x : String), x ∈ dedupFirstAux seen l → x ∉ seen
  | [], _, _, h => by simp [dedupFirstAux] at h
  | y :: ys, seen, x, h => by
    by_cases hy : y ∈ seen
    · rw [dedupFirstAux, if_pos hy] at h
      exact mem_dedupFirstAux_not_seen ys seen x h
    · rw [dedupFirstAux, if_neg hy] at h
      rcases List.mem_cons.mp h with h0 | h1
      · rw [h0]; exact hy
      · have := mem_dedupFirstAux_not_seen ys (y :: seen) x h1
        exact fun hx => this (List.mem_cons_of_mem y hx)

/-- The first-occurrence dedup produces a duplicate-free list. -/
theorem dedupFirstAux_nodup :
    ∀ (l seen : List String), (dedupFirstAux seen l).Nodup
  | [], _ => by simp [dedupFirstAux]
  | y :: ys, seen => by
    by_cases hy : y ∈ seen
    · rw [dedupFirstAux, if_pos hy]
      exact dedupFirstAux_nodup ys seen
    · rw [dedupFirstAux, if_neg hy]
      refine List.Nodup.cons (fun hmem => ?_) (dedupFirstAux_nodup ys (y :: seen))
      exact mem_dedupFirstAux_not_seen ys (y :: seen) y hmem (List.mem_cons_self y seen)

/-- The first-occurrence dedup lists elements in order of their first
occurrence in the input: later output elements have strictly larger
first-occurrence indices. -/
theorem dedupFirstAux_pairwise_indexOf :
    ∀ (l seen : List String),
      (dedupFirstAux seen l).Pairwise (fun a b => l.indexOf a < l.indexOf b)
  | [], _ => by simp [dedupFirstAux]
  | y :: ys, seen => by
    by_cases hy : y ∈ seen
    · rw [dedupFirstAux, if_pos hy]
      refine (dedupFirstAux_pairwise_indexOf ys seen).imp_of_mem ?_
      intro a b ha hb hr
      have hay : y ≠ a := by rintro rfl; exact mem_dedupFirstAux_not_seen ys seen y ha hy
      have hby : y ≠ b := by rintro rfl; exact mem_dedupFirstAux_not_seen ys seen y hb hy
      rw [List.indexOf_cons_ne ys hay, List.indexOf_cons_ne ys hby]
      omega
    · rw [dedupFirstAux, if_neg hy]
      refine List.Pairwise.cons (fun b hb => ?_) ?_
      · have hbny : y ≠ b := by
          rintro rfl
          exact mem_dedupFirstAux_not_seen ys (y :: seen) y hb (List.mem_cons_self y seen)
        rw [List.indexOf_cons_self, List.indexOf_cons_ne ys hbny]
        omega
      · refine (dedupFirstAux_pairwise_indexOf ys (y :: seen)).imp_of_mem
          (fun {a b} ha hb hr => ?_)
        have hay : y ≠ a := by
          rintro rfl
          exact mem_dedupFirstAux_not_seen ys (y :: seen) y ha (List.mem_cons_self y seen)
        have hby : y ≠ b := by
          rintro rfl
          exact mem_dedupFirstAux_not_seen ys (y :: seen) y hb (List.mem_cons_self y seen)
        rw [List.indexOf_cons_ne ys hay, List.indexOf_cons_ne ys hby]
        omega

/-- Once the template and the rule blocks have resolved, the assembly runs
its success branch. -/
theorem assemble_document_resolves (stores : Stores) (request : AssemblyRequest)
    (document_id : String) (template : Template) (rule_blocks : List String)
    (htempl : get_template stores.templates request.template_id = some template)
    (hrules : get_blocks_to_include stores.rules ⟨request.context⟩ = Except.ok rule_blocks) :
    assemble_document stores request document_id =
      assemble_with stores request document_id template rule_blocks := by
  simp [assemble_document, htempl, hrules]

/-- `dedupFirst` produces a duplicate-free list. -/
theorem dedupFirst_nodup (l : List String) : (dedupFirst l).Nodup :=
  dedupFirstAux_nodup l []

/-- `dedupFirst` lists elements by increasing first-occurrence index. -/
theorem dedupFirst_pairwise_indexOf (l : List String) :
    (dedupFirst l).Pairwise (fun a b => l.indexOf a < l.indexOf b) :=
  dedupFirstAux_pairwise_indexOf l []

/-- The early-return condition loop equals a conjunction over the map. -/
theorem check_section_conditions_eq_all :
    ∀ (conditions : List (String × Value)) (context : Ctx),
      check_section_conditions conditions context =
        conditions.all (fun kv => pyEq (pyGet context kv.1) kv.2)
  | [], _ => rfl
  | (key, expected) :: rest, context => by
    rw [check_section_conditions, List.all_cons]
    cases hp : pyEq (pyGet context key) expected
    · simp [hp]
    · simp [hp, check_section_conditions_eq_all rest context]

/-- Section inclusion equals the conjunction over its condition map, also
for the empty map. -/
theorem section_included_eq_all (sec : TemplateSection) (context : Ctx) :
    section_included sec context =
      sec.conditions.all (fun kv => pyEq (pyGet context kv.1) kv.2) := by
  cases hemp : sec.conditions with
  | nil => simp [section_included, hemp]
  | cons c cs => simp [section_included, hemp, check_section_conditions_eq_all]

/-- Python None equals only None. -/
theorem pyEq_none_left (v : Value) :
    pyEq (Value.prim Prim.none) v = true ↔ v = Value.prim Prim.none := by
  cases v with
  | prim p => cases p <;> simp [pyEq, primEq, Prim.asNum]
  | list xs => simp [pyEq]

/-- Shape of a successful assembly: the document's blocks come from the
resolution loop over the deduplicated merged candidate list, and the
reported count is their number. -/
theorem assemble_ok_inversion (stores : Stores) (request : AssemblyRequest)
    (document_id : String) (template : Template) (rule_blocks : List String)
    (stores2 : Stores) (resp : AssemblyResponse)
    (htempl : get_template stores.templates request.template_id = some template)
    (hrules : get_blocks_to_include stores.rules ⟨request.context⟩ = Except.ok rule_blocks)
    (hok : assemble_document stores request document_id = (stores2, Except.ok resp)) :
    resp.document.blocks =
      build_document_blocks stores.blocks 0
        (dedupFirst (template_blocks template request.context ++ rule_blocks)) ∧
    resp.blocks_included = resp.document.blocks.length := by
  rw [assemble_document_resolves stores request document_id template rule_blocks
    htempl hrules] at hok
  unfold assemble_with at hok
  simp only [Prod.mk.injEq, Except.ok.injEq] at hok
  obtain ⟨-, hr⟩ := hok
  subst hr
  exact ⟨rfl, rfl⟩

/-- C8: for every ConditionGroup whose condition list is empty and every
context, `evaluate_condition_group` returns true, regardless of the
group's logical operator. -/
theorem c8_empty_group_vacuously_true (operator : RuleOperator) (context : Ctx) :
    evaluate_condition_group ⟨operator, []⟩ context = .ok true := rfl

/-- C9: for every Rule with `enabled = false` and every context,
`evaluate_rule` reports no match and no actions, regardless of the rule's
condition group. -/
theorem c9_disabled_rule_no_match (rule : Rule) (context : Ctx)
    (h : rule.enabled = false) :
    evaluate_rule rule context =
      .ok { rule_id := rule.id, matched := false, actions := [],
            message := some "Rule is disabled" } := by
  simp [evaluate_rule, h]

/-- Witness for C9 at a concrete disabled rule whose condition group would
raise a TypeError if it were evaluated. -/
theorem c9_disabled_rule_no_match_witness :
    c9rule.enabled = false ∧
      evaluate_rule c9rule [("x", Value.prim (Prim.num 1))] =
        .ok { rule_id := "r1", matched := false, actions := [],
              message := some "Rule is disabled" } :=
  ⟨rfl, c9_disabled_rule_no_match c9rule [("x", Value.prim (Prim.num 1))] rfl⟩

/-- C10: for every Condition and every context binding the condition's
field to None, `evaluate_condition` is false for every operator: a key
present with None is indistinguishable from an absent key. -/
theorem c10_none_bound_field_never_matches (condition : Condition) (context : Ctx)
    (h : context.lookup condition.field = some (Value.prim Prim.none)) :
    evaluate_condition condition context = .ok false := by
  simp [evaluate_condition, pyGet, h]

/-- Witness for C10: even `field == None` with the key present and bound
to None evaluates to false. -/
theorem c10_none_bound_field_never_matches_witness :
    List.lookup "k" ([("k", Value.prim Prim.none)] : Ctx) = some (Value.prim Prim.none) ∧
      evaluate_condition ⟨"k", RuleOperator.EQUALS, Value.prim Prim.none⟩
        [("k", Value.prim Prim.none)] = .ok false :=
  ⟨rfl, c10_none_bound_field_never_matches ⟨"k", RuleOperator.EQUALS, Value.prim Prim.none⟩
    [("k", Value.prim Prim.none)] rfl⟩

/-- C5: when the template id does not resolve, `assemble_document` raises
the not-found ValueError and returns the stores unchanged: no document is
created or persisted. -/
theorem c5_missing_template_no_document (stores : Stores) (request : AssemblyRequest)
    (document_id : String)
    (h : get_template stores.templates request.template_id = Option.none) :
    assemble_document stores request document_id =
      (stores, .error (.valueError ("Template " ++ request.template_id ++ " not found"))) := by
  simp [assemble_document, h]

/-- Witness for C5 on empty stores and the template id does-not-exist. -/
theorem c5_missing_template_no_document_witness :
    get_template c5stores.templates "does-not-exist" = Option.none ∧
      assemble_document c5stores ⟨"does-not-exist", [], Option.none⟩ "doc5" =
        (c5stores, .error (.valueError "Template does-not-exist not found")) :=
  ⟨rfl, c5_missing_template_no_document c5stores ⟨"does-not-exist", [], Option.none⟩ "doc5" rfl⟩

/-- C2 counterexample: with the field x present (bound to the number 1),
the recognized operator GREATER against the string comparison value a
raises a TypeError instead of returning a boolean. -/
theorem c2_counterexample :
    List.lookup "x" ([("x", Value.prim (Prim.num 1))] : Ctx) = some (Value.prim (Prim.num 1)) ∧
      evaluate_condition ⟨"x", RuleOperator.GREATER, Value.prim (Prim.str "a")⟩
        [("x", Value.prim (Prim.num 1))] = .error PyErr.typeError :=
  ⟨rfl, rfl⟩

/-- C2 amended: for a field present with a non-None value, equality and
inequality and the unrecognized operators never raise - the unrecognized
operators (AND/OR reaching the fall-through) return false - while the
ordering and membership operators may raise a TypeError on incompatible
operand types. -/
theorem c2_amended_safe_operators (condition : Condition) (context : Ctx) (v : Value)
    (hmem : context.lookup condition.field = some v) (hv : v ≠ Value.prim Prim.none) :
    ((condition.operator = RuleOperator.AND ∨ condition.operator = RuleOperator.OR) →
        evaluate_condition condition context = .ok false) ∧
    ((condition.operator = RuleOperator.EQUALS ∨
        condition.operator = RuleOperator.NOT_EQUALS) →
        ∃ b, evaluate_condition condition context = .ok b) := by
  have hget : pyGet context condition.field = v := by simp [pyGet, hmem]
  constructor
  · rintro (hop | hop) <;> simp [evaluate_condition, hget, hv, hop]
  · rintro (hop | hop)
    · exact ⟨pyEq v condition.value, by simp [evaluate_condition, hget, hv, hop]⟩
    · exact ⟨!pyEq v condition.value, by simp [evaluate_condition, hget, hv, hop]⟩

/-- Witness for the amended C2: the unrecognized operator AND returns
false on a present, non-None field. -/
theorem c2_amended_safe_operators_witness :
    (List.lookup "x" ([("x", Value.prim (Prim.bool true))] : Ctx) =
        some (Value.prim (Prim.bool true)) ∧
      Value.prim (Prim.bool true) ≠ Value.prim Prim.none) ∧
      evaluate_condition ⟨"x", RuleOperator.AND, Value.prim (Prim.num 0)⟩
        [("x", Value.prim (Prim.bool true))] = .ok false :=
  ⟨⟨rfl, by decide⟩,
    (c2_amended_safe_operators ⟨"x", RuleOperator.AND, Value.prim (Prim.num 0)⟩
      [("x", Value.prim (Prim.bool true))] (Value.prim (Prim.bool true)) rfl
      (by decide)).1 (Or.inl rfl)⟩

/-- C4 counterexample: a non-empty condition map expecting None for the
key flag includes the section even though flag is missing from the
context, against the claim that a missing key excludes the section. -/
theorem c4_counterexample :
    c4section.conditions ≠ [] ∧
      List.lookup "flag" ([] : Ctx) = Option.none ∧
      section_included c4section [] = true :=
  ⟨by decide, rfl, rfl⟩

/-- C4 amended: a missing key is read as None, so the section is included
iff every pair's looked-up value (None when the key is missing) is
Python-equal to the expected value; a missing key therefore excludes the
section exactly when the expected value is not None. -/
theorem c4_amended_missing_key_reads_none :
    (∀ (sec : TemplateSection) (context : Ctx),
        section_included sec context =
          sec.conditions.all (fun kv => pyEq (pyGet context kv.1) kv.2)) ∧
    (∀ (sec : TemplateSection) (context : Ctx) (k : String) (v : Value),
        (k, v) ∈ sec.conditions → context.lookup k = Option.none →
          v ≠ Value.prim Prim.none → section_included sec context = false) := by
  refine ⟨section_included_eq_all, ?_⟩
  intro sec context k v hmem hlook hvne
  rw [section_included_eq_all, Bool.eq_false_iff]
  intro hall
  have hkv := List.all_eq_true.mp hall (k, v) hmem
  rw [show pyGet context k = Value.prim Prim.none from by simp [pyGet, hlook]] at hkv
  exact hvne ((pyEq_none_left v).mp hkv)

/-- Witness for the amended C4: a missing key with a non-None expected
value excludes the section. -/
theorem c4_amended_missing_key_reads_none_witness :
    (("flag", Value.prim (Prim.bool true)) ∈ c4wsec.conditions ∧
      List.lookup "flag" ([] : Ctx) = Option.none ∧
      Value.prim (Prim.bool true) ≠ Value.prim Prim.none) ∧
      section_included c4wsec [] = false :=
  ⟨⟨by decide, rfl, by decide⟩,
    c4_amended_missing_key_reads_none.2 c4wsec [] "flag" (Value.prim (Prim.bool true))
      (by decide) rfl (by decide)⟩

/-- C3 counterexample: on the line graph, traversal at depth 6 reaches G
while depth 5 does not, and depth 0 returns nothing while depth 1 reaches
B - so `max_depth` is neither clamped down to 5 nor up to 1. -/
theorem c3_counterexample :
    ("G" ∈ find_related_blocks lineEdges "A" 6 ∧
      "G" ∉ find_related_blocks lineEdges "A" 5) ∧
      find_related_blocks lineEdges "A" 0 ≠ find_related_blocks lineEdges "A" 1 := by
  decide

/-- C3 amended: the resolver applies no clamping: a non-positive
`max_depth` matches no path and yields the empty set, a `max_depth` above
5 traverses beyond 5 hops (depth 6 reaches G on the line graph), and the
range 1..5 is enforced only by the API layer's request validation, which
rejects out-of-range values rather than clamping them. -/
theorem c3_amended_no_clamping :
    (∀ (edges : List (String × String)) (block_id : String) (max_depth : Int),
        max_depth ≤ 0 → find_related_blocks edges block_id max_depth = []) ∧
      "G" ∈ find_related_blocks lineEdges "A" 6 ∧
      (∀ max_depth : Int, api_max_depth_ok max_depth = true ↔
        1 ≤ max_depth ∧ max_depth ≤ 5) := by
  refine ⟨?_, by decide, ?_⟩
  · intro edges block_id max_depth h
    rw [find_related_blocks, Int.toNat_of_nonpos h]
    rfl
  · intro d
    simp [api_max_depth_ok]

/-- Witness for the amended C3: a negative depth yields the empty set. -/
theorem c3_amended_no_clamping_witness :
    ((-1 : Int) ≤ 0) ∧ find_related_blocks [("A", "B")] "A" (-1) = [] :=
  ⟨by decide, c3_amended_no_clamping.1 [("A", "B")] "A" (-1) (by decide)⟩

/-- C1 counterexample: with candidate ids a, b, c and b unresolved, the
assembled orders are 0 and 2 - strictly increasing but not the contiguous
sequence 0..n-1 the claim requires. -/
theorem c1_counterexample :
    (assemble_document c1stores c1req "doc1").2.map
        (fun r => r.document.blocks.map DocumentBlock.order) = Except.ok [0, 2] ∧
      [0, 2] ≠ List.range 2 :=
  ⟨rfl, by decide⟩

/-- C1 amended: each DocumentBlock's order is the index of its block id in
the deduplicated candidate list, assigned before unresolved ids are
dropped: the orders are strictly increasing and point back at the
candidate list, and whenever every surviving candidate id resolves they
are exactly 0..n-1. -/
theorem c1_amended_orders_index_candidates (stores : Stores) (request : AssemblyRequest)
    (document_id : String) (template : Template) (rule_blocks : List String)
    (stores2 : Stores) (resp : AssemblyResponse)
    (htempl : get_template stores.templates request.template_id = some template)
    (hrules : get_blocks_to_include stores.rules ⟨request.context⟩ = Except.ok rule_blocks)
    (hok : assemble_document stores request document_id = (stores2, Except.ok resp)) :
    (resp.document.blocks.map DocumentBlock.order).Pairwise (· < ·) ∧
    (∀ db ∈ resp.document.blocks,
        (dedupFirst (template_blocks template request.context ++ rule_blocks))[db.order]? =
          some db.block_id) ∧
    ((∀ bid ∈ dedupFirst (template_blocks template request.context ++ rule_blocks),
        (get_block stores.blocks bid).isSome) →
      resp.document.blocks.map DocumentBlock.order =
        List.range resp.document.blocks.length) := by
  obtain ⟨hblocks, -⟩ := assemble_ok_inversion stores request document_id template
    rule_blocks stores2 resp htempl hrules hok
  rw [hblocks]
  refine ⟨?_, ?_, ?_⟩
  · exact List.pairwise_map.mpr (build_document_blocks_orders_pairwise stores.blocks _ 0)
  · intro db hdb
    obtain ⟨i, hi, hget⟩ := build_document_blocks_mem_get stores.blocks _ 0 db hdb
    rw [hi, Nat.zero_add]
    exact hget
  · intro hres
    have h1 := build_document_blocks_all_resolved stores.blocks _ 0 hres
    have hlen : (build_document_blocks stores.blocks 0
        (dedupFirst (template_blocks template request.context ++ rule_blocks))).length =
        (dedupFirst (template_blocks template request.context ++ rule_blocks)).length := by
      have := congrArg List.length h1
      simpa using this
    rw [h1, hlen, List.range_eq_range']

/-- Witness for the amended C1 on the order-gap stores. -/
theorem c1_amended_orders_index_candidates_witness :
    (get_template c1stores.templates c1req.template_id = some c1template ∧
      get_blocks_to_include c1stores.rules ⟨c1req.context⟩ = Except.ok [] ∧
      assemble_document c1stores c1req "doc1" = (c1stores2, Except.ok c1resp)) ∧
    ((c1resp.document.blocks.map DocumentBlock.order).Pairwise (· < ·) ∧
      (∀ db ∈ c1resp.document.blocks,
        (dedupFirst (template_blocks c1template c1req.context ++ []))[db.order]? =
          some db.block_id) ∧
      ((∀ bid ∈ dedupFirst (template_blocks c1template c1req.context ++ []),
          (get_block c1stores.blocks bid).isSome) →
        c1resp.document.blocks.map DocumentBlock.order =
          List.range c1resp.document.blocks.length)) :=
  ⟨⟨rfl, rfl, rfl⟩,
    c1_amended_orders_index_candidates c1stores c1req "doc1" c1template [] c1stores2 c1resp
      rfl rfl rfl⟩

/-- C6: in a successful assembly no two DocumentBlocks reference the same
source block id, and the DocumentBlocks appear in the order of the first
occurrence of their ids in the merged template-then-rules candidate
list. -/
theorem c6_dedup_first_occurrence (stores : Stores) (request : AssemblyRequest)
    (document_id : String) (template : Template) (rule_blocks : List String)
    (stores2 : Stores) (resp : AssemblyResponse)
    (htempl : get_template stores.templates request.template_id = some template)
    (hrules : get_blocks_to_include stores.rules ⟨request.context⟩ = Except.ok rule_blocks)
    (hok : assemble_document stores request document_id = (stores2, Except.ok resp)) :
    (resp.document.blocks.map DocumentBlock.block_id).Nodup ∧
    (resp.document.blocks.map DocumentBlock.block_id).Pairwise
      (fun a b => (template_blocks template request.context ++ rule_blocks).indexOf a <
        (template_blocks template request.context ++ rule_blocks).indexOf b) := by
  obtain ⟨hblocks, -⟩ := assemble_ok_inversion stores request document_id template
    rule_blocks stores2 resp htempl hrules hok
  rw [hblocks, build_document_blocks_ids]
  constructor
  · exact (List.filter_sublist _).nodup (dedupFirst_nodup _)
  · exact List.Pairwise.sublist (List.filter_sublist _) (dedupFirst_pairwise_indexOf _)

/-- Witness for C6 on stores with a duplicated template block id and two
rule-contributed ids. -/
theorem c6_dedup_first_occurrence_witness :
    (get_template c6stores.templates c6req.template_id = some c6template ∧
      get_blocks_to_include c6stores.rules ⟨c6req.context⟩ = Except.ok ["b", "c"] ∧
      assemble_document c6stores c6req "doc6" = (c6stores2, Except.ok c6resp)) ∧
    ((c6resp.document.blocks.map DocumentBlock.block_id).Nodup ∧
      (c6resp.document.blocks.map DocumentBlock.block_id).Pairwise
        (fun a b => (template_blocks c6template c6req.context ++ ["b", "c"]).indexOf a <
          (template_blocks c6template c6req.context ++ ["b", "c"]).indexOf b)) :=
  ⟨⟨rfl, rfl, rfl⟩,
    c6_dedup_first_occurrence c6stores c6req "doc6" c6template ["b", "c"] c6stores2 c6resp
      rfl rfl rfl⟩

/-- C7: once the template and rule evaluation resolve, the assembly
succeeds even when candidate ids do not resolve in the block store: the
reported `blocks_included` counts exactly the materialized DocumentBlocks,
and no DocumentBlock is emitted for an unresolvable id. -/
theorem c7_unresolved_blocks_dropped (stores : Stores) (request : AssemblyRequest)
    (document_id : String) (template : Template) (rule_blocks : List String)
    (htempl : get_template stores.templates request.template_id = some template)
    (hrules : get_blocks_to_include stores.rules ⟨request.context⟩ = Except.ok rule_blocks) :
    ∃ stores2 resp,
      assemble_document stores request document_id = (stores2, Except.ok resp) ∧
      resp.blocks_included = resp.document.blocks.length ∧
      ∀ block_id, get_block stores.blocks block_id = Option.none →
        block_id ∉ resp.document.blocks.map DocumentBlock.block_id := by
  rw [assemble_document_resolves stores request document_id template rule_blocks
    htempl hrules]
  refine ⟨_, _, rfl, rfl, ?_⟩
  intro block_id hnone hmem
  have hmem' : block_id ∈ (dedupFirst (template_blocks template request.context ++
      rule_blocks)).filter (fun bid => (get_block stores.blocks bid).isSome) := by
    rw [← build_document_blocks_ids]
    exact hmem
  have := (List.mem_filter.mp hmem').2
  rw [hnone] at this
  simp at this

/-- Witness for C7 on stores whose template lists the unresolvable id
bad. -/
theorem c7_unresolved_blocks_dropped_witness :
    (get_template c7stores.templates c7req.template_id = some c7template ∧
      get_blocks_to_include c7stores.rules ⟨c7req.context⟩ = Except.ok []) ∧
    (∃ stores2 resp,
      assemble_document c7stores c7req "doc7" = (stores2, Except.ok resp) ∧
      resp.blocks_included = resp.document.blocks.length ∧
      ∀ block_id, get_block c7stores.blocks block_id = Option.none →
        block_id ∉ resp.document.blocks.map DocumentBlock.block_id) :=
  ⟨⟨rfl, rfl⟩,
    c7_unresolved_blocks_dropped c7stores c7req "doc7" c7template [] rfl rfl⟩

end DocAssembly
